import Mathlib

/-!
# Verification of the `outer_science_box` dataplot scripts

Shallow embedding of the three scripts in `dataplot/`:

* `serial_logger.py` — the Capture Loop (`log_serial_data`), the Port Finder
  (`find_arduino_port`) and plot generation (`generate_plots`);
* `plot_ppm.py` — the Plot Renderer (`plot_all_sensors_combined` and friends);
* `serial_to_csv.py` — a simpler logging script (not the subject of any claim).

Modelling conventions:

* The serial device is modelled as a list of available input lines, each an
  `Option String`: `some s` is a line that decoded successfully (after the
  source's `.decode('utf-8').strip()`), `none` is a line whose decode raised
  `UnicodeDecodeError` (the source silently `continue`s on it).
* The output file is line-structured: the sink is a list of lines, the `'\n'`
  appended by `f.write(line + '\n')` being implicit in the line structure.
  Buffering is explicit: `f.write` appends to a `pending` buffer, `f.flush`
  moves `pending` to `disk`, and closing the file performs a final flush
  (the semantics of CPython's file objects under the `with` statement).
* Wall-clock time is discretised: each loop iteration that reads a line takes
  one time unit, and the loop guard `(time.time() - start_time) < duration`
  is checked once per iteration, exactly as in the source.  A `duration` of
  `0` therefore runs no iteration, and a `duration` larger than the number of
  available lines processes all of them.
* Console output is modelled by the list of `Event`s the loop emits:
  `.skip` for a `[SKIP]` print, `.info` for an `[INFO]` print and `.accept`
  for the progress print of an accepted line.  Lines containing `time_ms`
  and decode failures are dropped by a bare `continue` in the source and so
  emit no event.
* A `KeyboardInterrupt`-style external cancel is modelled by an optional
  iteration index at which the interrupt fires; the source has no handler
  for it in `log_serial_data`, so on an interrupt the `with` block closes
  (and flushes) the file but `ser.close()` and the final report are skipped.
-/

namespace Dataplot

/-- Python's `pat in s` substring test: some offset of `s` starts with `pat`. -/
def strContains (s pat : String) : Bool :=
  (List.range (s.length + 1)).any fun i => pat.data.isPrefixOf (s.data.drop i)

/-- Python's `line and line[0].isdigit()`: the line is nonempty and its first
character is a decimal digit. -/
def startsWithDigit (line : String) : Bool :=
  match line.data with
  | [] => false
  | c :: _ => c.isDigit

/-- `SKIP_WARMUP_LINES` configuration constant of `serial_logger.py`. -/
def SKIP_WARMUP_LINES : Bool := true

/-- The five warmup/calibration/progress markers tested by the first filter of
`log_serial_data` (printed as `[SKIP]`). -/
def isWarmupNoise (line : String) : Bool :=
  strContains line "Warming" || strContains line "remaining" ||
    strContains line "Calibrat" || strContains line "complete" ||
    strContains line "Ro:"

/-- The duplicate-CSV-header marker tested by the second filter of
`log_serial_data` (dropped silently). -/
def isDupHeader (line : String) : Bool :=
  strContains line "time_ms"

/-- A line matching any of the fixed noise substrings, duplicate-header marker
included. -/
def noiseAny (line : String) : Bool :=
  isWarmupNoise line || isDupHeader line

/-- The fixed CSV header written by `log_serial_data` before any data. -/
def HEADER : String := "time_ms,site,sensor,value,unit,temp_C,hum_pct,press_hPa"

/-- A console event of the capture loop: a `[SKIP]` print, an `[INFO]` print,
or the progress print of an accepted line. -/
inductive Event where
  | skip
  | info
  | accept
deriving DecidableEq

/-- How `log_serial_data` classifies one decoded line, following the source's
branch order. -/
inductive LineClass where
  | noise
  | dupHeader
  | data
  | info
deriving DecidableEq

/-- The classification logic of the body of the capture loop, in source order:
warmup noise first, then the duplicate header, then the leading-digit test. -/
def classify (line : String) : LineClass :=
  if SKIP_WARMUP_LINES && isWarmupNoise line then .noise
  else if SKIP_WARMUP_LINES && isDupHeader line then .dupHeader
  else if startsWithDigit line then .data
  else .info

/-- The observable state of one capture session: the flushed file contents
(`disk`), the unflushed write buffer (`pending`), the accepted-line counter
(`line_count`) and the console events emitted so far. -/
structure LogState where
  disk : List String
  pending : List String
  line_count : Nat
  events : List Event
deriving DecidableEq

/-- State after `open(output_file, 'w')` and the header write: the header is
written (unflushed) and no line has been accepted. -/
def initState : LogState :=
  ⟨[], [HEADER], 0, []⟩

/-- Process one read: a decode failure (`none`) is silently dropped; otherwise
the line is classified and the state updated as in the loop body.  An accepted
line is written and flushed immediately and bumps the counter. -/
def procLine (st : LogState) (l : Option String) : LogState :=
  match l with
  | none => st
  | some line =>
    match classify line with
    | .noise => { st with events := st.events ++ [.skip] }
    | .dupHeader => st
    | .data =>
      { st with
        disk := st.disk ++ st.pending ++ [line]
        pending := []
        line_count := st.line_count + 1
        events := st.events ++ [.accept] }
    | .info => { st with events := st.events ++ [.info] }

/-- Does the external interrupt fire at this iteration? -/
def interruptNow (intr : Option Nat) (elapsed : Nat) : Bool :=
  match intr with
  | some m => m = elapsed
  | none => false

/-- Does the external interrupt fire while the loop idles (no further input
lines) before the duration elapses? -/
def idleInterrupt (intr : Option Nat) (elapsed duration : Nat) : Bool :=
  match intr with
  | some m => decide (elapsed ≤ m ∧ m < duration)
  | none => false

/-- The main logging loop of `log_serial_data`: while elapsed time is below
the duration, read and process one line per time unit; returns the state at
loop exit and whether an external interrupt fired. -/
def captureLoop (duration : Nat) (intr : Option Nat) :
    List (Option String) → Nat → LogState → LogState × Bool
  | [], elapsed, st =>
    if elapsed < duration then
      if interruptNow intr elapsed then (st, true)
      else (st, idleInterrupt intr elapsed duration)
    else (st, false)
  | l :: rest, elapsed, st =>
    if elapsed < duration then
      if interruptNow intr elapsed then (st, true)
      else captureLoop duration intr rest (elapsed + 1) (procLine st l)
    else (st, false)

/-- Closing the output file flushes any pending writes (the `with` statement
does this on both normal exit and exception propagation). -/
def closeFile (st : LogState) : LogState :=
  { st with disk := st.disk ++ st.pending, pending := [] }

/-- Outcome of one call of `log_serial_data`: the final file state, whether an
interrupt fired, whether the output file and the serial device were closed,
whether the final report was printed, and the returned value (`none` when the
interrupt propagated and the function never returned). -/
structure RunOutcome where
  state : LogState
  interrupted : Bool
  fileClosed : Bool
  serClosed : Bool
  reported : Bool
  result : Option Bool
deriving DecidableEq

/-- `log_serial_data` with an optional external interrupt at a given
iteration.  On an interrupt the `with` block still closes (and so flushes)
the file, but the uncaught exception skips `ser.close()`, the final report
and the `return`. -/
def log_serial_data_run (duration : Nat) (inputs : List (Option String))
    (intr : Option Nat) : RunOutcome :=
  let r := captureLoop duration intr inputs 0 initState
  let stc := closeFile r.1
  if r.2 then
    ⟨stc, true, true, false, false, none⟩
  else
    ⟨stc, false, true, true, true, some (decide (0 < stc.line_count))⟩

/-- `log_serial_data` without interruption (the normal session). -/
def log_serial_data (duration : Nat) (inputs : List (Option String)) :
    RunOutcome :=
  log_serial_data_run duration inputs none

/-! ## Port Finder (`find_arduino_port` in `serial_logger.py`) -/

/-- One entry of `serial.tools.list_ports.comports()`: a device path and a
human-readable description. -/
structure PortInfo where
  device : String
  description : String
deriving DecidableEq

/-- The fixed adapter-substring test of the port-finder loop. -/
def isArduinoLike (device : String) : Bool :=
  strContains device "usbmodem" || strContains device "usbserial" ||
    strContains device "ttyUSB" || strContains device "ttyACM"

/-- The `for port in ports` loop of `find_arduino_port`: the first device whose
name contains one of the adapter substrings, else `none`. -/
def find_arduino_port : List PortInfo → Option String
  | [] => none
  | p :: rest =>
    if isArduinoLike p.device then some p.device else find_arduino_port rest

/-- `find_arduino_port` together with its console output: when no device
matches, the full device list is printed for manual inspection. -/
def find_arduino_port_full (ports : List PortInfo) : Option String × List String :=
  match find_arduino_port ports with
  | some d => (some d, [])
  | none =>
    (none,
      "Available ports:" ::
        ports.map (fun p => "  " ++ p.device ++ " - " ++ p.description))

/-! ## Plot Renderer (`plot_all_sensors_combined` in `plot_ppm.py`) -/

/-- One Record of the Variant-B table read by `plot_ppm.py`
(`time_ms,site,sensor,value,unit,...`), with the numeric value kept exact. -/
structure Record where
  time_ms : Nat
  site : Int
  sensor : String
  value : ℚ
  unit : String
deriving DecidableEq

/-- The fixed list of (sensor_id, display title, colour) of the 2×2 MQ grid. -/
def mqSensors : List (String × String × String) :=
  [("MQ4_CH4", "MQ-4 Methane (CH₄)", "tab:blue"),
   ("MQ136_H2S", "MQ-136 H₂S", "tab:orange"),
   ("MQ8_H2", "MQ-8 Hydrogen (H₂)", "tab:green"),
   ("MQ135_CO2", "MQ-135 CO₂", "tab:red")]

/-! ## Binary64 model for `df["time_s"] = df["time_ms"] / 1000.0`

The renderer divides the integer `time_ms` column by the float literal
`1000.0`, an IEEE-754 binary64 division.  For operands that are themselves
exact in binary64 (every `time_ms` below `2^53` is), the hardware result is
the true rational quotient rounded to 53 significant bits, round to nearest,
ties to even.  We model that rounding exactly over `ℚ` (the exponent range of
binary64 is never approached by these magnitudes, so overflow and subnormals
do not arise). -/

/-- Fuel-driven floor of `log₂`: `log2f fuel n` is `⌊log₂ n⌋` whenever
`1 ≤ n ≤ fuel` (structural recursion on the fuel so that the kernel can
evaluate it). -/
def log2f : Nat → Nat → Nat
  | 0, _ => 0
  | fuel + 1, n => if 2 ≤ n then log2f fuel (n / 2) + 1 else 0

/-- `⌊log₂ n⌋` for `n ≥ 1`. -/
def natLog2 (n : Nat) : Nat := log2f n n

/-- `⌈log₂ n⌉` for `n ≥ 1`: the least `k` with `n ≤ 2 ^ k`. -/
def natClog2 (n : Nat) : Nat :=
  if n ≤ 1 then 0 else natLog2 (n - 1) + 1

/-- Floor of `log₂ q` for a positive rational `q` (unspecified for `q ≤ 0`). -/
def ratLog2 (q : ℚ) : Int :=
  if 1 ≤ q then (natLog2 ⌊q⌋.toNat : Int)
  else -(natClog2 ⌈1 / q⌉.toNat : Int)

/-- Round a rational to the nearest integer, ties to even. -/
def roundHalfEven (q : ℚ) : Int :=
  let fl := ⌊q⌋
  if q - fl < 1 / 2 then fl
  else if 1 / 2 < q - fl then fl + 1
  else if fl % 2 = 0 then fl else fl + 1

/-- Round a rational to the nearest binary64 value (53-bit significand,
round to nearest, ties to even; exponent range unbounded). -/
def roundB64 (q : ℚ) : ℚ :=
  if q = 0 then 0
  else
    (if q < 0 then -(roundHalfEven (|q| * 2 ^ (52 - ratLog2 |q|)) : ℚ)
     else (roundHalfEven (|q| * 2 ^ (52 - ratLog2 |q|)) : ℚ)) *
      2 ^ (ratLog2 |q| - 52)

/-- The derived elapsed-seconds column: the binary64 result of
`time_ms / 1000.0` for a non-negative integer timestamp. -/
def time_s (t : Nat) : ℚ :=
  roundB64 ((t : ℚ) / 1000)

/-- One panel of the fixed 2×2 grid: either a placeholder marked `(No Data)`
(with its axis turned off) or a line plot of elapsed seconds against value,
labelled with the unit of the first matching record. -/
inductive Panel where
  | noData (title : String)
  | line (title : String) (pts : List (ℚ × ℚ)) (ylabel : String) (color : String)
deriving DecidableEq

/-- The body of the per-sensor loop of `plot_all_sensors_combined`: filter the
table to the sensor (and site), render a placeholder when the series is empty
and a line plot otherwise.  `none` models a crash (an out-of-bounds
`iloc[0]`), which the guard makes unreachable. -/
def renderPanel (df : List Record) (sensorName title color : String)
    (siteId : Int) : Option Panel :=
  let data := df.filter fun r => r.sensor == sensorName && r.site == siteId
  if data.isEmpty then some (.noData (title ++ "\n(No Data)"))
  else
    match data.head? with
    | none => none
    | some r0 =>
      some (.line title (data.map fun r => (time_s r.time_ms, r.value))
        r0.unit color)

/-- `plot_all_sensors_combined(site_id)`: the 2×2 grid, one panel per entry of
the fixed sensor list. -/
def plot_all_sensors_combined (df : List Record) (siteId : Int) :
    List (Option Panel) :=
  mqSensors.map fun s => renderPanel df s.1 s.2.1 s.2.2 siteId

/-! ## Helper lemmas -/

/-- Classification of a line that starts with a digit and matches no noise
substring: it is data. -/
theorem classify_eq_data (line : String) (hd : startsWithDigit line = true)
    (hn : noiseAny line = false) : classify line = .data := by
  have hn' := hn
  unfold noiseAny at hn'
  obtain ⟨h1, h2⟩ := Bool.or_eq_false_iff.mp hn'
  simp [classify, SKIP_WARMUP_LINES, h1, h2, hd]

/-- Conversely, a line classified as data starts with a digit and matches no
noise substring. -/
theorem of_classify_eq_data (line : String) (h : classify line = .data) :
    startsWithDigit line = true ∧ noiseAny line = false := by
  simp only [classify, SKIP_WARMUP_LINES, Bool.true_and] at h
  by_cases hw : isWarmupNoise line = true
  · simp [hw] at h
  · by_cases hh : isDupHeader line = true
    · simp [hw, hh] at h
    · by_cases hd : startsWithDigit line = true
      · exact ⟨hd, by
          simp only [noiseAny, Bool.or_eq_false_iff]
          exact ⟨by simpa using hw, by simpa using hh⟩⟩
      · simp [hw, hh, hd] at h

/-- A line matches no noise substring iff it contains none of the six fixed
markers. -/
theorem noiseAny_false_iff (l : String) :
    noiseAny l = false ↔
      strContains l "Warming" = false ∧ strContains l "remaining" = false ∧
      strContains l "Calibrat" = false ∧ strContains l "complete" = false ∧
      strContains l "Ro:" = false ∧ strContains l "time_ms" = false := by
  unfold noiseAny isWarmupNoise isDupHeader
  simp [Bool.or_eq_false_iff, and_assoc]

/-- A line that matches no noise substring and does not start with a digit is
treated as an informational message: reported, not persisted. -/
theorem procLine_info (st : LogState) (line : String)
    (hn : noiseAny line = false) (hd : startsWithDigit line = false) :
    procLine st (some line) = { st with events := st.events ++ [Event.info] } := by
  have hn' := hn
  unfold noiseAny at hn'
  obtain ⟨h1, h2⟩ := Bool.or_eq_false_iff.mp hn'
  have hc : classify line = .info := by
    simp [classify, SKIP_WARMUP_LINES, h1, h2, hd]
  simp [procLine, hc]

/-- Any per-state property preserved by one processing step is preserved by
the whole capture loop. -/
theorem captureLoop_preserves (P : LogState → Prop)
    (hP : ∀ st l, P st → P (procLine st l)) (duration : Nat) (intr : Option Nat) :
    ∀ ins elapsed st, P st → P (captureLoop duration intr ins elapsed st).1 := by
  intro ins
  induction ins with
  | nil =>
    intro elapsed st h
    simp only [captureLoop]
    split_ifs <;> exact h
  | cons l rest ih =>
    intro elapsed st h
    simp only [captureLoop]
    split_ifs
    · exact h
    · exact ih (elapsed + 1) (procLine st l) (hP st l h)
    · exact h

/-- Length invariant of a session: flushed plus pending lines always number
one more (the header) than the accepted-line counter. -/
theorem sink_length_aux (d : Nat) (ins : List (Option String)) (intr : Option Nat) :
    (log_serial_data_run d ins intr).state.disk.length =
      (log_serial_data_run d ins intr).state.line_count + 1 := by
  have key := captureLoop_preserves
    (fun st => (st.disk ++ st.pending).length = st.line_count + 1)
    (by
      intro st l h
      match l with
      | none => exact h
      | some line =>
        simp only [procLine]
        cases hc : classify line <;> simp_all
        all_goals omega)
    d intr ins 0 initState (by simp [initState])
  simp only [log_serial_data_run]
  split_ifs <;> simp [closeFile] <;> simpa using key

/-- A line persisted after the header starts with a digit and matches no noise
substring. -/
def goodLine (l : String) : Prop :=
  startsWithDigit l = true ∧ noiseAny l = false

/-- Content invariant of a session: the closed file is the fixed header
followed by rows that all start with a digit and match no noise substring. -/
theorem disk_lines_good (d : Nat) (ins : List (Option String)) (intr : Option Nat) :
    ∃ rows, (log_serial_data_run d ins intr).state.disk = HEADER :: rows ∧
      ∀ l ∈ rows, goodLine l := by
  have key := captureLoop_preserves
    (fun st => ∃ rows, st.disk ++ st.pending = HEADER :: rows ∧ ∀ l ∈ rows, goodLine l)
    (by
      intro st l h
      obtain ⟨rows, hrows, hgood⟩ := h
      match l with
      | none => exact ⟨rows, hrows, hgood⟩
      | some line =>
        cases hc : classify line
        · simp only [procLine, hc]
          exact ⟨rows, hrows, hgood⟩
        · simp only [procLine, hc]
          exact ⟨rows, hrows, hgood⟩
        · simp only [procLine, hc]
          refine ⟨rows ++ [line], ?_, ?_⟩
          · rw [show HEADER :: (rows ++ [line]) = (HEADER :: rows) ++ [line] from rfl,
              ← hrows]
            simp
          · intro x hx
            rcases List.mem_append.mp hx with hx | hx
            · exact hgood x hx
            · have hx' : x = line := List.mem_singleton.mp hx
              subst hx'
              exact of_classify_eq_data x hc
        · simp only [procLine, hc]
          exact ⟨rows, hrows, hgood⟩)
    d intr ins 0 initState ⟨[], by simp [initState], by simp⟩
  obtain ⟨rows, hrows, hgood⟩ := key
  refine ⟨rows, ?_, hgood⟩
  simp only [log_serial_data_run]
  split_ifs <;> simpa [closeFile] using hrows

/-- The port-finder loop computes the first match in enumeration order. -/
theorem find_arduino_port_eq (ports : List PortInfo) :
    find_arduino_port ports =
      (ports.find? fun p => isArduinoLike p.device).map PortInfo.device := by
  induction ports with
  | nil => rfl
  | cons p rest ih =>
    by_cases h : isArduinoLike p.device = true
    · simp [find_arduino_port, List.find?_cons, h]
    · simp only [find_arduino_port, List.find?_cons]
      rw [if_neg (by simpa using h)]
      simp only [Bool.not_eq_true] at h
      rw [h]
      exact ih

/-- Correctness of the fuel-driven binary logarithm: with enough fuel it
brackets `n` between consecutive powers of two. -/
theorem log2f_spec (fuel : Nat) : ∀ n, 1 ≤ n → n ≤ fuel →
    2 ^ log2f fuel n ≤ n ∧ n < 2 ^ (log2f fuel n + 1) := by
  induction fuel with
  | zero => intro n h1 h2; omega
  | succ fuel ih =>
    intro n h1 h2
    by_cases h : 2 ≤ n
    · have h1' : 1 ≤ n / 2 := by omega
      have h2' : n / 2 ≤ fuel := by omega
      obtain ⟨ha, hb⟩ := ih (n / 2) h1' h2'
      simp only [log2f, if_pos h]
      constructor
      · calc 2 ^ (log2f fuel (n / 2) + 1) = 2 * 2 ^ log2f fuel (n / 2) := by ring
          _ ≤ n := by omega
      · calc n < 2 * 2 ^ (log2f fuel (n / 2) + 1) := by omega
          _ = 2 ^ (log2f fuel (n / 2) + 1 + 1) := by ring
    · have hn : n = 1 := by omega
      subst hn
      simp [log2f]

/-- `natLog2` brackets every positive `n` between consecutive powers of two. -/
theorem natLog2_spec (n : Nat) (h : 1 ≤ n) :
    2 ^ natLog2 n ≤ n ∧ n < 2 ^ (natLog2 n + 1) :=
  log2f_spec n n h le_rfl

/-- `natLog2` is bounded by any exponent whose power exceeds `n`. -/
theorem natLog2_le_of_lt (n k : Nat) (h1 : 1 ≤ n) (h2 : n < 2 ^ (k + 1)) :
    natLog2 n ≤ k := by
  have hs := natLog2_spec n h1
  by_contra hc
  have : 2 ^ (k + 1) ≤ 2 ^ natLog2 n := Nat.pow_le_pow_right (by norm_num) (by omega)
  omega

/-- Round-to-nearest-even is the identity on integers. -/
theorem roundHalfEven_intCast (k : Int) : roundHalfEven (k : ℚ) = k := by
  simp only [roundHalfEven, Int.floor_intCast]
  norm_num

/-- Binary64 rounding is the identity on natural numbers below `2 ^ 53`
(their significand fits in 53 bits). -/
theorem roundB64_natCast (n : Nat) (h2 : n < 2 ^ 53) : roundB64 (n : ℚ) = (n : ℚ) := by
  by_cases h1 : n = 0
  · subst h1; simp [roundB64]
  · have h1' : 1 ≤ n := by omega
    have hq1 : (1 : ℚ) ≤ (n : ℚ) := by exact_mod_cast h1'
    have hq0 : ¬ ((n : ℚ) = 0) := by exact_mod_cast h1
    have hqneg : ¬ ((n : ℚ) < 0) := not_lt.mpr (by positivity)
    have habs : |(n : ℚ)| = (n : ℚ) := abs_of_nonneg (by positivity)
    have hfl : (⌊(n : ℚ)⌋ : Int) = (n : Int) := Int.floor_natCast n
    have htn : (⌊(n : ℚ)⌋).toNat = n := by rw [hfl]; exact Int.toNat_natCast n
    have hlog : ratLog2 (n : ℚ) = (natLog2 n : Int) := by
      rw [ratLog2, if_pos hq1, htn]
    have hle : natLog2 n ≤ 52 := natLog2_le_of_lt n 52 h1' h2
    have hsub : (52 : Int) - (natLog2 n : Int) = ((52 - natLog2 n : Nat) : Int) := by
      omega
    have hzpow : (2 : ℚ) ^ ((52 : Int) - (natLog2 n : Int)) =
        ((2 ^ (52 - natLog2 n) : Nat) : ℚ) := by
      rw [hsub, zpow_natCast]
      push_cast
      ring
    have hscaled : (n : ℚ) * (2 : ℚ) ^ ((52 : Int) - (natLog2 n : Int)) =
        ((n * 2 ^ (52 - natLog2 n) : Nat) : ℚ) := by
      rw [hzpow]
      push_cast
      ring
    rw [roundB64, if_neg hq0, if_neg hqneg, habs, hlog, hscaled]
    have hcast : ((n * 2 ^ (52 - natLog2 n) : Nat) : ℚ) =
        (((n * 2 ^ (52 - natLog2 n) : Nat) : Int) : ℚ) := by push_cast; ring
    rw [hcast, roundHalfEven_intCast]
    push_cast
    rw [mul_assoc, ← zpow_natCast (2 : ℚ) (52 - natLog2 n),
      ← zpow_add₀ (by norm_num : (2 : ℚ) ≠ 0)]
    have : ((52 - natLog2 n : Nat) : Int) + ((natLog2 n : Int) - 52) = 0 := by omega
    rw [this, zpow_zero, mul_one]

/-- The end-to-end scenario input of the spec. -/
def c4Inputs : List (Option String) :=
  [some "Warming up...", some "time_ms,site,sensor,value,unit",
   some "1000,1,MQ4_CH4,12.5,ppm", some "not-a-number"]

/-- Events that correspond to a line reported as skipped or informational. -/
def isSkipOrInfo : Event → Bool
  | .skip => true
  | .info => true
  | .accept => false

/-! ## Claims -/

/-- C1: for every input line whose decoded text begins with a decimal digit
and matches none of the noise substrings, the Capture Loop appends that line
unchanged, byte-for-byte, to the output sink as a new line, flushes
immediately (the write buffer is emptied to disk together with the new line),
and increments the accepted-line counter by exactly one. -/
theorem accepted_line_appended_verbatim (st : LogState) (line : String)
    (hd : startsWithDigit line = true) (hn : noiseAny line = false) :
    procLine st (some line) =
      { st with
        disk := st.disk ++ st.pending ++ [line]
        pending := []
        line_count := st.line_count + 1
        events := st.events ++ [Event.accept] } := by
  simp [procLine, classify_eq_data line hd hn]

/-- Witness for C1 at a concrete data line and the initial session state. -/
theorem accepted_line_appended_verbatim_witness :
    startsWithDigit "1000,1,MQ4_CH4,12.5,ppm" = true ∧
    noiseAny "1000,1,MQ4_CH4,12.5,ppm" = false ∧
    procLine initState (some "1000,1,MQ4_CH4,12.5,ppm") =
      { initState with
        disk := initState.disk ++ initState.pending ++ ["1000,1,MQ4_CH4,12.5,ppm"]
        pending := []
        line_count := initState.line_count + 1
        events := initState.events ++ [Event.accept] } :=
  ⟨by decide, by decide,
    accepted_line_appended_verbatim initState "1000,1,MQ4_CH4,12.5,ppm"
      (by decide) (by decide)⟩

/-- C2 counterexample: a session interrupted mid-loop leaves the function by
an uncaught exception, so `ser.close()` is never executed and no partial
results are reported, contradicting the claim that the device is still closed
and partial results reported. -/
theorem interrupt_skips_device_close_cex :
    (log_serial_data_run 5 [some "1000,1,MQ4_CH4,12.5,ppm"] (some 0)).interrupted
      = true ∧
    (log_serial_data_run 5 [some "1000,1,MQ4_CH4,12.5,ppm"] (some 0)).serClosed
      = false ∧
    (log_serial_data_run 5 [some "1000,1,MQ4_CH4,12.5,ppm"] (some 0)).reported
      = false := by
  decide

/-- C2 (amended): when the Capture Loop is interrupted by an external cancel,
the output file is still closed by the `with` block and left consistent and
appendable — every pending write is flushed, so there is no partial unflushed
final line — but the serial device is not explicitly closed and no partial
results are reported, because `log_serial_data` has no handler for the
interrupt and the exception propagates. -/
theorem interrupted_session_file_consistent (d : Nat)
    (ins : List (Option String)) (intr : Option Nat)
    (h : (log_serial_data_run d ins intr).interrupted = true) :
    (log_serial_data_run d ins intr).fileClosed = true ∧
    (log_serial_data_run d ins intr).state.pending = [] ∧
    (log_serial_data_run d ins intr).serClosed = false ∧
    (log_serial_data_run d ins intr).reported = false := by
  simp only [log_serial_data_run] at h ⊢
  cases hb : (captureLoop d intr ins 0 initState).2 <;>
    simp [hb, closeFile] at h ⊢

/-- Witness for C2 (amended): a concrete session interrupted one iteration
after an accepted line. -/
theorem interrupted_session_file_consistent_witness :
    (log_serial_data_run 5 [some "2000,1,MQ8_H2,3.25,ppm"] (some 1)).fileClosed
      = true ∧
    (log_serial_data_run 5 [some "2000,1,MQ8_H2,3.25,ppm"] (some 1)).state.pending
      = [] ∧
    (log_serial_data_run 5 [some "2000,1,MQ8_H2,3.25,ppm"] (some 1)).serClosed
      = false ∧
    (log_serial_data_run 5 [some "2000,1,MQ8_H2,3.25,ppm"] (some 1)).reported
      = false :=
  interrupted_session_file_consistent 5 [some "2000,1,MQ8_H2,3.25,ppm"] (some 1)
    (by decide)

/-- C3 counterexample: at `time_ms = 1` the stored elapsed-seconds value is
the binary64 rounding of `1/1000`, which is not exactly `1/1000` (the
quotient is not representable in binary64), refuting exactness for all
non-negative timestamps. -/
theorem time_s_not_exact_at_one_ms : time_s 1 ≠ (1 : ℚ) / 1000 := by
  have hlog : ratLog2 ((1 : ℚ) / 1000) = -10 := by
    have h1 : ¬ (1 ≤ (1 : ℚ) / 1000) := by norm_num
    have h2 : (1 : ℚ) / ((1 : ℚ) / 1000) = 1000 := by norm_num
    have h3 : ⌈(1000 : ℚ)⌉ = 1000 := by norm_num
    rw [ratLog2, if_neg h1, h2, h3]
    decide
  have habs : |(1 : ℚ) / 1000| = 1 / 1000 := by rw [abs_of_nonneg]; norm_num
  have hc : ((1 : Nat) : ℚ) = 1 := by norm_num
  rw [time_s, hc, roundB64,
    if_neg (by norm_num : ¬ ((1 : ℚ) / 1000 = 0)),
    if_neg (by norm_num : ¬ ((1 : ℚ) / 1000 < 0)), habs, hlog]
  have h5 : ((52 : Int) - (-10)) = 62 := by norm_num
  have h6 : ((-10 : Int) - 52) = -62 := by norm_num
  rw [h5, h6]
  have h7 : (1 : ℚ) / 1000 * 2 ^ (62 : Int) = 4611686018427387904 / 1000 := by
    norm_num
  rw [h7]
  have hfl : ⌊(4611686018427387904 : ℚ) / 1000⌋ = 4611686018427387 := by norm_num
  have h8 : roundHalfEven ((4611686018427387904 : ℚ) / 1000) = 4611686018427388 := by
    simp only [roundHalfEven, hfl]
    norm_num
  rw [h8]
  norm_num

/-- C3 (amended): the derived elapsed-seconds value equals `time_ms / 1000`
exactly whenever the quotient is representable in binary64 — in particular
for every timestamp that is a multiple of 1000 within the 53-bit
integer-exact range, e.g. `time_ms = 60000` gives `time_s = 60.0`.  For other
timestamps the stored value is the nearest binary64 number, which differs
from the exact quotient (see the counterexample at `time_ms = 1`). -/
theorem time_s_exact_on_thousand_multiples (t : Nat) (hlt : t < 2 ^ 53)
    (hdvd : 1000 ∣ t) : time_s t = (t : ℚ) / 1000 := by
  obtain ⟨n, rfl⟩ := hdvd
  have hn : n < 2 ^ 53 := by
    have : 1 * n ≤ 1000 * n := Nat.mul_le_mul_right n (by norm_num)
    omega
  have hq : ((1000 * n : Nat) : ℚ) / 1000 = (n : ℚ) := by
    push_cast
    field_simp
  rw [time_s, hq]
  exact roundB64_natCast n hn

/-- Witness for C3 (amended) at the spec's example `time_ms = 60000`. -/
theorem time_s_exact_on_thousand_multiples_witness :
    time_s 60000 = (60000 : ℚ) / 1000 :=
  time_s_exact_on_thousand_multiples 60000 (by norm_num) (by norm_num)

/-- C4: on the spec's end-to-end input, with a duration exceeding the read
time, the session yields exactly the fixed header plus the single data row,
reports exactly two lines as skipped or informational (`[SKIP] Warming up...`
and `[INFO] not-a-number`; the duplicate header is dropped silently), counts
exactly one accepted line, and returns success. -/
theorem end_to_end_scenario_single_row :
    (log_serial_data 10 c4Inputs).state.disk =
      [HEADER, "1000,1,MQ4_CH4,12.5,ppm"] ∧
    (log_serial_data 10 c4Inputs).state.line_count = 1 ∧
    (log_serial_data 10 c4Inputs).state.events.countP isSkipOrInfo = 2 ∧
    (log_serial_data 10 c4Inputs).state.events.countP (· == Event.accept) = 1 ∧
    (log_serial_data 10 c4Inputs).result = some true := by
  decide

/-- C5 counterexample: a line matching the duplicate-header noise substring
`time_ms` is discarded (state unchanged) but emits no event at all — it is
not reported as skipped, contradicting the claim that every noise match is
reported as skipped. -/
theorem dup_header_line_not_reported_cex :
    noiseAny "time_ms,site,sensor,value,unit" = true ∧
    (procLine initState (some "time_ms,site,sensor,value,unit")).events =
      initState.events := by
  decide

/-- C5 (amended): a line matching any of the fixed noise substrings is never
appended to the output sink, regardless of its leading character — the sink,
buffer and accepted-line counter are unchanged; it is reported as skipped
when it matches one of the warmup/calibration/progress markers, and dropped
silently when it matches only the duplicate-header marker. -/
theorem noise_line_never_appended (st : LogState) (line : String)
    (hn : noiseAny line = true) :
    (procLine st (some line)).disk = st.disk ∧
    (procLine st (some line)).pending = st.pending ∧
    (procLine st (some line)).line_count = st.line_count ∧
    (isWarmupNoise line = true →
      (procLine st (some line)).events = st.events ++ [Event.skip]) ∧
    (isWarmupNoise line = false → (procLine st (some line)).events = st.events) := by
  cases hw : isWarmupNoise line
  · have hd : isDupHeader line = true := by
      have := hn
      unfold noiseAny at this
      simpa [hw] using this
    have hc : classify line = .dupHeader := by
      simp [classify, SKIP_WARMUP_LINES, hw, hd]
    simp [procLine, hc]
  · have hc : classify line = .noise := by
      simp [classify, SKIP_WARMUP_LINES, hw]
    simp [procLine, hc]

/-- Witness for C5 (amended) at a concrete warmup line that begins with a
digit: it is still discarded and reported as skipped. -/
theorem noise_line_never_appended_witness :
    noiseAny "300s remaining" = true ∧
    (procLine initState (some "300s remaining")).disk = initState.disk ∧
    (procLine initState (some "300s remaining")).line_count =
      initState.line_count ∧
    (procLine initState (some "300s remaining")).events =
      initState.events ++ [Event.skip] :=
  ⟨by decide,
    (noise_line_never_appended initState "300s remaining" (by decide)).1,
    (noise_line_never_appended initState "300s remaining" (by decide)).2.2.1,
    (noise_line_never_appended initState "300s remaining" (by decide)).2.2.2.1
      (by decide)⟩

/-- C6: at the end of every capture session — for every duration, every input
sequence and even under interruption — the accepted-line counter equals the
number of lines in the output sink minus one, the subtracted line being the
fixed header. -/
theorem accepted_count_equals_sink_lines_minus_header (d : Nat)
    (ins : List (Option String)) (intr : Option Nat) :
    (log_serial_data_run d ins intr).state.line_count =
      (log_serial_data_run d ins intr).state.disk.length - 1 ∧
    1 ≤ (log_serial_data_run d ins intr).state.disk.length := by
  have h := sink_length_aux d ins intr
  omega

/-- C7: a session with `duration = 0` runs no loop iteration for any input
sequence: the output file holds only the header, zero lines are accepted, and
the session returns the no-data outcome (`False`). -/
theorem duration_zero_header_only (inputs : List (Option String)) :
    (log_serial_data 0 inputs).state.disk = [HEADER] ∧
    (log_serial_data 0 inputs).state.line_count = 0 ∧
    (log_serial_data 0 inputs).result = some false := by
  cases inputs <;>
    simp [log_serial_data, log_serial_data_run, captureLoop, closeFile, initState]

/-- C8: for every table and every sensor of the fixed plot list, the renderer
never crashes (the panel is always produced), an empty matching series yields
the `(No Data)` placeholder panel rather than an omission, and the grid always
keeps its fixed four panels. -/
theorem empty_series_renders_placeholder (df : List Record)
    (name title color : String) (site : Int)
    (_hmem : (name, title, color) ∈ mqSensors) :
    (renderPanel df name title color site).isSome = true ∧
    ((df.filter fun r => r.sensor == name && r.site == site) = [] →
      renderPanel df name title color site =
        some (Panel.noData (title ++ "\n(No Data)"))) ∧
    (plot_all_sensors_combined df site).length = 4 := by
  refine ⟨?_, ?_, ?_⟩
  · cases hdata : df.filter fun r => r.sensor == name && r.site == site with
    | nil => simp [renderPanel, hdata]
    | cons r rs => simp [renderPanel, hdata]
  · intro hfil
    simp [renderPanel, hfil]
  · simp [plot_all_sensors_combined, mqSensors]

/-- Witness for C8 at the empty table and the first sensor of the fixed
list. -/
theorem empty_series_renders_placeholder_witness :
    (renderPanel [] "MQ4_CH4" "MQ-4 Methane (CH₄)" "tab:blue" 1).isSome = true ∧
    renderPanel [] "MQ4_CH4" "MQ-4 Methane (CH₄)" "tab:blue" 1 =
      some (Panel.noData ("MQ-4 Methane (CH₄)" ++ "\n(No Data)")) ∧
    (plot_all_sensors_combined [] 1).length = 4 :=
  ⟨(empty_series_renders_placeholder [] "MQ4_CH4" "MQ-4 Methane (CH₄)"
      "tab:blue" 1 (by decide)).1,
   (empty_series_renders_placeholder [] "MQ4_CH4" "MQ-4 Methane (CH₄)"
      "tab:blue" 1 (by decide)).2.1 rfl,
   (empty_series_renders_placeholder [] "MQ4_CH4" "MQ-4 Methane (CH₄)"
      "tab:blue" 1 (by decide)).2.2⟩

/-- C9: the Port Finder returns the first device in enumeration order whose
name contains one of the fixed adapter substrings (it computes the list's
first match), and when no device matches it returns no selection and reports
the full device list. -/
theorem port_finder_first_match_or_report (ports : List PortInfo) :
    find_arduino_port ports =
      (ports.find? fun p => isArduinoLike p.device).map PortInfo.device ∧
    ((∀ p ∈ ports, isArduinoLike p.device = false) →
      find_arduino_port_full ports =
        (none, "Available ports:" ::
          ports.map fun p => "  " ++ p.device ++ " - " ++ p.description)) := by
  refine ⟨find_arduino_port_eq ports, ?_⟩
  intro hall
  have hnone : find_arduino_port ports = none := by
    rw [find_arduino_port_eq]
    rw [List.find?_eq_none.mpr (by intro p hp; simp [hall p hp])]
    rfl
  simp [find_arduino_port_full, hnone]

/-- Witness for C9: a matching device is selected first in enumeration order,
and a snapshot with no match yields no selection and the full report. -/
theorem port_finder_first_match_or_report_witness :
    find_arduino_port
        [⟨"/dev/cu.Bluetooth-Incoming-Port", "n/a"⟩,
         ⟨"/dev/cu.usbmodem14201", "Arduino Uno"⟩,
         ⟨"/dev/ttyACM0", "Arduino Mega"⟩] =
      (([⟨"/dev/cu.Bluetooth-Incoming-Port", "n/a"⟩,
         ⟨"/dev/cu.usbmodem14201", "Arduino Uno"⟩,
         ⟨"/dev/ttyACM0", "Arduino Mega"⟩] : List PortInfo).find? fun p =>
          isArduinoLike p.device).map PortInfo.device ∧
    find_arduino_port_full [⟨"/dev/cu.Bluetooth-Incoming-Port", "n/a"⟩] =
      (none, ["Available ports:",
        "  /dev/cu.Bluetooth-Incoming-Port - n/a"]) :=
  ⟨(port_finder_first_match_or_report
      [⟨"/dev/cu.Bluetooth-Incoming-Port", "n/a"⟩,
       ⟨"/dev/cu.usbmodem14201", "Arduino Uno"⟩,
       ⟨"/dev/ttyACM0", "Arduino Mega"⟩]).1,
   (port_finder_first_match_or_report
      [⟨"/dev/cu.Bluetooth-Incoming-Port", "n/a"⟩]).2 (by decide)⟩

/-- C10 counterexample: the claim says every decoded line that is empty or
starts with a non-digit character is reported as informational, but
`"Warming up..."` starts with a non-digit and is reported as `[SKIP]`, not
`[INFO]`, refuting the claim's second clause at a concrete input. -/
theorem nondigit_not_always_info_cex :
    startsWithDigit "Warming up..." = false ∧
    (procLine initState (some "Warming up...")).events ≠
      initState.events ++ [Event.info] ∧
    (procLine initState (some "Warming up...")).events =
      initState.events ++ [Event.skip] := by
  decide

/-- C10 (amended): output-file invariant — after any session the sink is the
fixed header followed only by lines that begin with a decimal digit and
contain none of the six fixed substrings; and a decoded line that is empty
or starts with a non-digit character is never persisted, and is reported as
informational when it additionally matches no noise substring (a
noise-matching non-digit line is instead reported as skipped or, for the
duplicate-header marker, dropped silently — see the counterexample). -/
theorem sink_invariant_and_nondigit_never_persisted :
    (∀ (d : Nat) (ins : List (Option String)) (intr : Option Nat),
      ∃ rows, (log_serial_data_run d ins intr).state.disk = HEADER :: rows ∧
        ∀ l ∈ rows, startsWithDigit l = true ∧
          strContains l "Warming" = false ∧ strContains l "remaining" = false ∧
          strContains l "Calibrat" = false ∧ strContains l "complete" = false ∧
          strContains l "Ro:" = false ∧ strContains l "time_ms" = false) ∧
    (∀ (st : LogState) (line : String), startsWithDigit line = false →
      (procLine st (some line)).disk = st.disk ∧
      (procLine st (some line)).pending = st.pending ∧
      (procLine st (some line)).line_count = st.line_count ∧
      (noiseAny line = false →
        (procLine st (some line)).events = st.events ++ [Event.info])) := by
  constructor
  · intro d ins intr
    obtain ⟨rows, hrows, hgood⟩ := disk_lines_good d ins intr
    refine ⟨rows, hrows, ?_⟩
    intro l hl
    obtain ⟨hd, hn⟩ := hgood l hl
    obtain ⟨h1, h2, h3, h4, h5, h6⟩ := (noiseAny_false_iff l).mp hn
    exact ⟨hd, h1, h2, h3, h4, h5, h6⟩
  · intro st line hd
    by_cases hn : noiseAny line = false
    · rw [procLine_info st line hn hd]
      exact ⟨rfl, rfl, rfl, fun _ => rfl⟩
    · have hn' : noiseAny line = true := by
        revert hn
        cases noiseAny line <;> simp
      cases hw : isWarmupNoise line
      · have hdup : isDupHeader line = true := by
          have h2 := hn'
          unfold noiseAny at h2
          simpa [hw] using h2
        have hc : classify line = .dupHeader := by
          simp [classify, SKIP_WARMUP_LINES, hw, hdup]
        refine ⟨by simp [procLine, hc], by simp [procLine, hc],
          by simp [procLine, hc], ?_⟩
        intro h
        rw [h] at hn'
        simp at hn'
      · have hc : classify line = .noise := by
          simp [classify, SKIP_WARMUP_LINES, hw]
        refine ⟨by simp [procLine, hc], by simp [procLine, hc],
          by simp [procLine, hc], ?_⟩
        intro h
        rw [h] at hn'
        simp at hn'

/-- Witness for C10 (amended) at a concrete informational line. -/
theorem sink_invariant_and_nondigit_never_persisted_witness :
    (procLine initState (some "not-a-number")).disk = initState.disk ∧
    (procLine initState (some "not-a-number")).line_count =
      initState.line_count ∧
    (procLine initState (some "not-a-number")).events =
      initState.events ++ [Event.info] := by
  have h := sink_invariant_and_nondigit_never_persisted.2 initState
    "not-a-number" (by decide)
  exact ⟨h.1, h.2.2.1, h.2.2.2 (by decide)⟩

end Dataplot
